import Mathlib

/-!
Verification of the Parlami dashboard core (src/app.py): the enrichment
engine (`enrich_alert`), the severity ranking used by `api_alerts_detailed`,
the local-report resolver (`find_latest_report`), and the approval ledger
(`api_fix` / `save_approval`), as a shallow embedding in Lean.

Dictionaries with a fixed schema are embedded as structures with `Option`
fields (`none` = key absent); Python `dict.get(k, d)` becomes `Option.getD`.
Python string operations on the ASCII rule keywords are modelled by
character-list functions below.
-/

namespace Parlami

/-- Python `needle in hay` prefix step: does `n` start `h`? -/
def startsL (n h : List Char) : Bool :=
  match n, h with
  | [], _ => true
  | _ :: _, [] => false
  | a :: as, b :: bs => a == b && startsL as bs

/-- Python substring containment `needle in hay` on character lists. -/
def containsL (n : List Char) : List Char → Bool
  | [] => n.isEmpty
  | b :: bs => startsL n (b :: bs) || containsL n bs

/-- Python `needle in hay` for strings. -/
def pyIn (needle hay : String) : Bool :=
  containsL needle.data hay.data

/-- Python `str.lower()`. The source only lowercases findings before matching
ASCII keywords; per-character ASCII lowering agrees with Python there. -/
def pyLower (s : String) : String :=
  String.mk (s.data.map Char.toLower)

/-- Python `abs(hash(s))`, modelled by a fixed string hash.  Python seeds its
string hash per process; no claim depends on the numeric value, only on the
shape of the derived `alert_id`. -/
def pyHash (s : String) : Nat :=
  s.hash.toNat

/-- RawAlert (app.py data shape): a raw alert dict from an agent report.
`none` models an absent key. -/
structure RawAlert where
  finding : Option String
  school : Option String
  level : Option String
  impact_dollars : Option Int
  assigned_to : Option String
  action_required : Option String
deriving DecidableEq, Repr

/-- One entry of a school list in `report["campaign_breakdown"]`. -/
structure Campaign where
  name : Option String
  conversions : Option Int
  spend : Option Int
deriving DecidableEq, Repr

/-- One school entry of `report["metrics"]`. -/
structure SchoolMetrics where
  pages_live : Option Int
  pages_indexed : Option Int
deriving DecidableEq, Repr

/-- The report fields `enrich_alert` reads: `campaign_breakdown` (dict of
school to campaign list, in insertion order) and `metrics` (dict of school
to metrics). -/
structure Report where
  campaign_breakdown : List (String × List Campaign)
  metrics : List (String × SchoolMetrics)
deriving DecidableEq, Repr

/-- FixSuggestion: one entry of the `fixes` list.  Only the zero-conversion
rule emits a `campaign` key, so it is optional. -/
structure Fix where
  description : String
  action_type : String
  estimated_impact : String
  assigned_agent : String
  campaign : Option String
deriving DecidableEq, Repr

/-- EnrichedAlert, the output dict of `enrich_alert`. -/
structure Enriched where
  alert_id : String
  agent : String
  level : String
  school : String
  title : String
  impact_monthly : Int
  impact_type : String
  why : String
  evidence : List String
  fixes : List Fix
  assigned_to : String
deriving DecidableEq, Repr

/-- `campaign_name` scan of the zero-conversions branch (app.py 649-654):
for each school list of `campaign_breakdown`, take the first campaign with
`conversions == 0` and `spend > 50` (the `break` leaves the inner loop only,
so a later school list with a match overwrites the name). -/
def campaignScan (cbs : List (List Campaign)) : String :=
  cbs.foldl
    (fun acc lst =>
      match lst.find? (fun c => c.conversions == some 0 && decide (c.spend.getD 0 > 50)) with
      | some c => c.name.getD ""
      | none => acc)
    ""

/-- `report.get("metrics", {}).get(school, {})` (app.py 699-700). -/
def metricsFor (r : Report) (schoolKey : Option String) : SchoolMetrics :=
  match schoolKey with
  | some s => (r.metrics.lookup s).getD ⟨none, none⟩
  | none => ⟨none, none⟩

/-- `…get("pages_live", "?")` rendered into the f-string. -/
def showOptInt (o : Option Int) : String :=
  match o with
  | some n => toString n
  | none => "?"

/-- A rule result: the (`why`, `evidence`, `fixes`) triple a matching branch
writes into the enriched dict. -/
abbrev Triple := String × List String × List Fix

/-- Annunci zero-conversions branch (app.py 648-665). -/
def annunciZeroConv (rawFinding : String) (impact : Int) (r : Report) : Triple :=
  let campaign_name := campaignScan (r.campaign_breakdown.map Prod.snd)
  ("This campaign has been running for a full week spending money but generating zero tour bookings. Either the targeting is too broad, the landing page isn\x27t converting, or conversion tracking may be broken.",
   ["$" ++ toString impact ++ " spent in the last 7 days with 0 conversions",
    if campaign_name != "" then "Campaign: " ++ campaign_name else "Multiple campaigns affected",
    "Week-over-week conversions dropped 96% across all campaigns",
    "Other campaigns in the same account are also underperforming"],
   [⟨"Pause the campaign immediately to stop wasting budget", "pause_campaign",
     "Save ~$" ++ toString (impact * 4) ++ "/month", "annunci",
     some (if campaign_name != "" then campaign_name else rawFinding)⟩,
    ⟨"Verify conversion tracking is working with Bussola", "verify_tracking",
     "Ensure data accuracy", "bussola", none⟩])

/-- Annunci high-CPA branch (app.py 666-674). -/
def annunciCpa (rawFinding : String) : Triple :=
  ("The cost per acquisition is significantly above target, meaning you\x27re paying too much for each tour booking. This usually means the ad assets or targeting need optimization.",
   [rawFinding, "Target CPA is $50, current CPA is more than double"],
   [⟨"Audit asset group performance and pause underperformers", "audit_assets",
     "Reduce CPA by 30-50%", "annunci", none⟩])

/-- Annunci conversions-collapsed branch (app.py 675-685). -/
def annunciCollapsed : Triple :=
  ("Conversions dropped dramatically (96%) in one week. This is almost certainly a tracking issue — real tour interest doesn\x27t drop this fast. The conversion pixel or form tracking likely broke.",
   ["Previous week: 129 conversions → This week: 5 conversions (96% drop)",
    "Ad spend only decreased 10%, so ads are still running",
    "All campaigns affected simultaneously — points to tracking, not ad quality"],
   [⟨"Run conversion tracking audit with Bussola", "verify_tracking",
     "Critical — all optimization depends on accurate data", "bussola", none⟩,
    ⟨"Check GTM tags and form submission events", "check_gtm",
     "Identify the exact break point", "bussola", none⟩])

/-- Annunci performing-well branch (app.py 686-691). -/
def annunciGood (rawFinding : String) : Triple :=
  ("This campaign is performing well and delivering results at or below target cost.",
   [rawFinding],
   [⟨"Consider increasing budget to get more conversions", "increase_budget",
     "2-3 more tours/week", "annunci", none⟩])

/-- Zona deindexed branch (app.py 695-706). -/
def zonaDeindex (rawFinding : String) (impact : Int) (r : Report) (schoolKey : Option String) : Triple :=
  let m := metricsFor r schoolKey
  ("Google can\x27t find these pages because they haven\x27t been submitted to Search Console, or there\x27s a technical block (like a noindex tag). The content is excellent but completely invisible to anyone searching.",
   [rawFinding,
    "Pages live: " ++ showOptInt m.pages_live,
    "Pages indexed: " ++ showOptInt m.pages_indexed],
   [⟨"Submit all community pages to Google Search Console for indexing", "submit_indexing",
     "Recover ~$" ++ toString (impact * 4) ++ "/month in organic traffic value", "architetto", none⟩,
    ⟨"Check for noindex tags or robots.txt blocks", "check_noindex",
     "Remove technical barriers", "architetto", none⟩,
    ⟨"Add pages to XML sitemap", "update_sitemap",
     "Improve crawl discovery", "architetto", none⟩])

/-- Zona zero-results branch (app.py 707-712). -/
def zonaZeroResults (rawFinding : String) (impact : Int) : Triple :=
  ("Your school doesn\x27t appear in search results for this important local keyword. Competitors are taking all the traffic. Once community pages get indexed, rankings should improve.",
   [rawFinding],
   [⟨"Optimize community page for this keyword once indexed", "optimize_page",
     "~$" ++ toString (impact * 4) ++ "/month in organic value", "spia", none⟩])

/-- Zona not-indexed branch (app.py 713-718). -/
def zonaNotIndexed (rawFinding : String) (impact : Int) : Triple :=
  ("This specific community page exists but isn\x27t showing up in Google. It may need to be manually submitted or there could be a technical issue preventing indexing.",
   [rawFinding],
   [⟨"Submit page to Search Console and verify indexing", "submit_indexing",
     "~$" ++ toString (impact * 4) ++ "/month potential", "architetto", none⟩])

/-- Spia traffic-drop branch (app.py 721-728). -/
def spiaDrop (rawFinding : String) : Triple :=
  ("Organic search traffic is declining. This could be due to algorithm changes, new competitors ranking higher, or technical SEO issues affecting your site\x27s visibility.",
   [rawFinding],
   [⟨"Audit affected pages for technical SEO issues", "seo_audit",
     "Recover lost organic traffic", "spia", none⟩,
    ⟨"Check for SERP changes and new competitors", "competitor_check",
     "Understand competitive landscape", "spia", none⟩])

/-- Spia ranking-poorly branch (app.py 729-734). -/
def spiaRanking (rawFinding : String) : Triple :=
  ("Content targeting these keywords isn\x27t strong enough to compete. The pages exist but need better optimization, more internal links, and stronger authority signals.",
   [rawFinding],
   [⟨"Optimize content with better keyword targeting and internal links", "optimize_content",
     "Improve rankings to page 1", "penna", none⟩])

/-- Bussola zero-conversions branch (app.py 738-743). -/
def bussolaZeroConv (rawFinding : String) : Triple :=
  ("People are visiting the site but nobody is converting. Either the contact form is broken, the tracking code isn\x27t firing, or the landing page isn\x27t compelling enough.",
   [rawFinding],
   [⟨"Test all forms manually and check GTM setup", "check_forms",
     "Fix conversion path", "bussola", none⟩])

/-- Bussola bounce branch (app.py 744-749). -/
def bussolaBounce (rawFinding : String) : Triple :=
  ("Visitors are leaving immediately without interacting. The landing page may be slow, confusing, or not matching what the ad promised.",
   [rawFinding],
   [⟨"Optimize landing page UX and load time", "optimize_page",
     "Reduce bounce rate, increase conversions", "architetto", none⟩])

/-- The per-domain if/elif keyword chains of `enrich_alert` (app.py 646-749):
first matching branch of the producing agent\x27s domain wins, `none` if no
branch matches.  Conditions mirror Python operator precedence, in particular
`"collapsed" in finding or "dropped" in finding and "conversion" in finding`
parses as `collapsed ∨ (dropped ∧ conversion)`. -/
def ruleMatch (agent_id finding rawFinding : String) (impact : Int)
    (r : Report) (schoolKey : Option String) : Option Triple :=
  if agent_id == "annunci" then
    if pyIn "zero conversions" finding || pyIn "0 conversions" finding then
      some (annunciZeroConv rawFinding impact r)
    else if pyIn "cpa" finding && (pyIn "high" finding || pyIn "2." finding || pyIn "3." finding) then
      some (annunciCpa rawFinding)
    else if pyIn "collapsed" finding || (pyIn "dropped" finding && pyIn "conversion" finding) then
      some annunciCollapsed
    else if pyIn "excellent" finding || pyIn "good" finding || pyIn "performing" finding then
      some (annunciGood rawFinding)
    else none
  else if agent_id == "zona" then
    if pyIn "deindex" finding then
      some (zonaDeindex rawFinding impact r schoolKey)
    else if pyIn "zero" finding && pyIn "results" finding then
      some (zonaZeroResults rawFinding impact)
    else if pyIn "not appearing" finding || pyIn "not indexed" finding then
      some (zonaNotIndexed rawFinding impact)
    else none
  else if agent_id == "spia" then
    if pyIn "dropped" finding || pyIn "drop" finding then
      some (spiaDrop rawFinding)
    else if pyIn "ranking poorly" finding || pyIn "low ctr" finding then
      some (spiaRanking rawFinding)
    else none
  else if agent_id == "bussola" then
    if pyIn "zero conversions" finding && pyIn "sessions" finding then
      some (bussolaZeroConv rawFinding)
    else if pyIn "bounce" finding then
      some (bussolaBounce rawFinding)
    else none
  else none

/-- `enrich_alert(alert, agent_id, report)` (app.py 617-759). -/
def enrich_alert (alert : RawAlert) (agent_id : String) (report : Report) : Enriched :=
  let rawFinding := alert.finding.getD ""
  let finding := pyLower rawFinding
  let school := alert.school.getD "unknown"
  let level := alert.level.getD "yellow"
  let impact := alert.impact_dollars.getD 0
  let alert_id := school ++ "-" ++ agent_id ++ "-" ++ toString (pyHash rawFinding % 10000)
  let impact_type :=
    if agent_id == "annunci" && decide (impact > 0) then "confirmed"
    else if agent_id == "bussola" && decide (impact > 0) then "confirmed"
    else "estimated"
  let base : Enriched :=
    ⟨alert_id, agent_id, level, school, rawFinding,
     if impact > 0 then impact * 4 else 0, impact_type,
     "", [], [], alert.assigned_to.getD agent_id⟩
  let afterRules :=
    match ruleMatch agent_id finding rawFinding impact report (some school) with
    | some (w, e, f) => { base with why := w, evidence := e, fixes := f }
    | none => base
  if afterRules.why == "" then
    { afterRules with
        why := alert.action_required.getD "Investigation needed to determine root cause.",
        evidence := [rawFinding],
        fixes := [⟨alert.action_required.getD "Review and take action", "manual_review",
                   "TBD", alert.assigned_to.getD agent_id, none⟩] }
  else afterRules

/-- The `impact_monthly` written at app.py 638, unchanged by the rule and
fallback phases. -/
theorem enrich_impact_monthly (a : RawAlert) (g : String) (r : Report) :
    (enrich_alert a g r).impact_monthly =
      if 0 < a.impact_dollars.getD 0 then a.impact_dollars.getD 0 * 4 else 0 := by
  rcases h : ruleMatch g (pyLower (a.finding.getD "")) (a.finding.getD "")
      (a.impact_dollars.getD 0) r (some (a.school.getD "unknown")) with _ | ⟨w, e, f⟩ <;>
    simp only [enrich_alert, h] <;> split <;> rfl

/-- The `impact_type` classification at app.py 626-630, unchanged by the rule
and fallback phases. -/
theorem enrich_impact_type (a : RawAlert) (g : String) (r : Report) :
    (enrich_alert a g r).impact_type =
      if g == "annunci" && decide (0 < a.impact_dollars.getD 0) then "confirmed"
      else if g == "bussola" && decide (0 < a.impact_dollars.getD 0) then "confirmed"
      else "estimated" := by
  rcases h : ruleMatch g (pyLower (a.finding.getD "")) (a.finding.getD "")
      (a.impact_dollars.getD 0) r (some (a.school.getD "unknown")) with _ | ⟨w, e, f⟩ <;>
    simp only [enrich_alert, h] <;> split <;> rfl

/-- C1: for every raw alert, enrichment sets `impact_monthly` to
`impact_dollars * 4` when `impact_dollars > 0` and to `0` when
`impact_dollars` is `0` or absent (in which case `alert.get` yields `0`). -/
theorem C1_impact_monthly_spec (a : RawAlert) (g : String) (r : Report) :
    (0 < a.impact_dollars.getD 0 →
      (enrich_alert a g r).impact_monthly = a.impact_dollars.getD 0 * 4) ∧
    (a.impact_dollars.getD 0 = 0 → (enrich_alert a g r).impact_monthly = 0) ∧
    (a.impact_dollars = none → (enrich_alert a g r).impact_monthly = 0) := by
  refine ⟨fun hpos => ?_, fun h0 => ?_, fun hn => ?_⟩
  · rw [enrich_impact_monthly]; simp [hpos]
  · rw [enrich_impact_monthly]; simp [h0]
  · rw [enrich_impact_monthly]; simp [hn]

/-- C2: enrichment classifies `impact_type` as `"confirmed"` exactly when the
producing agent is `annunci` or `bussola` and `impact_dollars > 0`; in every
other case it is `"estimated"`. -/
theorem C2_impact_type_spec (a : RawAlert) (g : String) (r : Report) :
    ((enrich_alert a g r).impact_type = "confirmed" ↔
      ((g = "annunci" ∨ g = "bussola") ∧ 0 < a.impact_dollars.getD 0)) ∧
    ((enrich_alert a g r).impact_type = "confirmed" ∨
      (enrich_alert a g r).impact_type = "estimated") := by
  rw [enrich_impact_type]
  constructor
  · constructor
    · intro h
      by_cases h1 : g = "annunci" <;> by_cases h2 : g = "bussola" <;>
        by_cases h3 : 0 < a.impact_dollars.getD 0 <;>
        simp_all
    · rintro ⟨h1 | h1, h2⟩ <;> simp [h1, h2]
  · by_cases h1 : g = "annunci" <;> by_cases h2 : g = "bussola" <;>
      by_cases h3 : 0 < a.impact_dollars.getD 0 <;> simp_all

/-- Every matching rule branch writes a non-empty `why`, a non-empty
`evidence` list and a non-empty `fixes` list. -/
theorem ruleMatch_nonempty {g fi raw : String} {impact : Int} {r : Report}
    {sk : Option String} {t : Triple}
    (h : ruleMatch g fi raw impact r sk = some t) :
    t.1 ≠ "" ∧ t.2.1 ≠ [] ∧ t.2.2 ≠ [] := by
  unfold ruleMatch at h
  split_ifs at h <;>
    first
      | exact Option.noConfusion h
      | (obtain rfl := Option.some.inj h
         refine ⟨?_, ?_, ?_⟩ <;>
           simp [annunciZeroConv, annunciCpa, annunciCollapsed, annunciGood,
                 zonaDeindex, zonaZeroResults, zonaNotIndexed, spiaDrop,
                 spiaRanking, bussolaZeroConv, bussolaBounce])

/-- C10: the `fixes` and `evidence` of every enriched alert are non-empty:
either a domain rule matched (every rule writes non-empty lists), or the
generic fallback wrote singleton lists. -/
theorem C10_nonempty_outputs (a : RawAlert) (g : String) (r : Report) :
    (enrich_alert a g r).fixes ≠ [] ∧ (enrich_alert a g r).evidence ≠ [] := by
  rcases h : ruleMatch g (pyLower (a.finding.getD "")) (a.finding.getD "")
      (a.impact_dollars.getD 0) r (some (a.school.getD "unknown")) with _ | ⟨w, e, fx⟩
  · simp [enrich_alert, h]
  · obtain ⟨hw, he, hf⟩ := ruleMatch_nonempty h
    simp only at hw he hf
    simp [enrich_alert, h, hw, he, hf]

/-- The raw alert of the §8 scenario for the advertising-spend agent. -/
def c4_alert : RawAlert :=
  ⟨some "Zero conversions despite $420 spend", some "beibei", some "red",
   some 420, none, none⟩

/-- C4: enriching the scenario alert for `annunci`, with any report, yields
`impact_type = "confirmed"`, `impact_monthly = 1680` and a non-empty `fixes`
list whose first entry is the `pause_campaign` fix of the first matching
rule. -/
theorem C4_scenario (r : Report) :
    (enrich_alert c4_alert "annunci" r).impact_type = "confirmed" ∧
    (enrich_alert c4_alert "annunci" r).impact_monthly = 1680 ∧
    (enrich_alert c4_alert "annunci" r).fixes ≠ [] ∧
    (enrich_alert c4_alert "annunci" r).fixes.head?.map Fix.action_type =
      some "pause_campaign" := by
  have h1 : pyIn "zero conversions" (pyLower "Zero conversions despite $420 spend") = true := by
    decide
  have hm : ruleMatch "annunci" (pyLower "Zero conversions despite $420 spend")
      "Zero conversions despite $420 spend" 420 r (some "beibei") =
      some (annunciZeroConv "Zero conversions despite $420 spend" 420 r) := by
    simp [ruleMatch, h1]
  refine ⟨?_, ?_, ?_, ?_⟩
  · rw [enrich_impact_type]; decide
  · rw [enrich_impact_monthly]; decide
  · simp [enrich_alert, c4_alert, hm, annunciZeroConv]
  · simp [enrich_alert, c4_alert, hm, annunciZeroConv]

/-- C5: when the finding matches no rule of the agent\x27s domain, enrichment
emits the generic fallback (app.py 751-757): `why` is the alert\x27s
`action_required` (or the generic investigation string when absent),
`evidence` is the singleton raw finding, and `fixes` is one `manual_review`
fix assigned to the alert\x27s original assignee. -/
theorem C5_fallback (a : RawAlert) (g : String) (r : Report)
    (h : ruleMatch g (pyLower (a.finding.getD "")) (a.finding.getD "")
        (a.impact_dollars.getD 0) r (some (a.school.getD "unknown")) = none) :
    (enrich_alert a g r).why =
      a.action_required.getD "Investigation needed to determine root cause." ∧
    (enrich_alert a g r).evidence = [a.finding.getD ""] ∧
    (enrich_alert a g r).fixes =
      [⟨a.action_required.getD "Review and take action", "manual_review", "TBD",
        a.assigned_to.getD g, none⟩] ∧
    (enrich_alert a g r).fixes.map Fix.assigned_agent =
      [(enrich_alert a g r).assigned_to] := by
  simp [enrich_alert, h]

/-- An empty canonical report. -/
def emptyReport : Report := ⟨[], []⟩

/-- The unmatched alert of the §8 fallback scenario. -/
def c5_alert : RawAlert :=
  ⟨some "Unusual pattern observed", none, none, none, none, some "Review manually"⟩

/-- C5 witness: the fallback theorem at the concrete §8 scenario. -/
theorem C5_fallback_witness :
    (enrich_alert c5_alert "marco" emptyReport).why = "Review manually" ∧
    (enrich_alert c5_alert "marco" emptyReport).fixes.map Fix.action_type =
      ["manual_review"] := by
  have h := C5_fallback c5_alert "marco" emptyReport (by decide)
  exact ⟨h.1, by rw [h.2.2.1]; rfl⟩

/-- `order.get(a["level"], 3)` with `order = red 0, yellow 1, green 2`
(app.py 992): unrecognized levels rank 3. -/
def levelOrder (level : String) : Nat :=
  if level == "red" then 0
  else if level == "yellow" then 1
  else if level == "green" then 2
  else 3

/-- The sort key of app.py 993: `(order.get(level, 3), -impact_monthly)`. -/
def sortKey (a : Enriched) : Nat × Int :=
  (levelOrder a.level, -a.impact_monthly)

/-- Lexicographic order on sort keys, as Python tuple comparison. -/
def keyLe (p q : Nat × Int) : Bool :=
  decide (p.1 < q.1) || (p.1 == q.1 && decide (p.2 ≤ q.2))

/-- `all_alerts.sort(key=lambda a: (order.get(a["level"], 3),
-a.get("impact_monthly", 0)))` (app.py 992-993).  Python list.sort is a
stable sort by this key; it is embedded as `List.mergeSort`, which is stable
by the same total preorder and hence extensionally the same function. -/
def rankAlerts (l : List Enriched) : List Enriched :=
  l.mergeSort (fun a b => keyLe (sortKey a) (sortKey b))

theorem keyLe_trans (a b c : Nat × Int) (h1 : keyLe a b = true)
    (h2 : keyLe b c = true) : keyLe a c = true := by
  simp only [keyLe, Bool.or_eq_true, Bool.and_eq_true, decide_eq_true_eq,
    beq_iff_eq] at *
  omega

theorem keyLe_total (a b : Nat × Int) : (keyLe a b || keyLe b a) = true := by
  simp only [keyLe, Bool.or_eq_true, Bool.and_eq_true, decide_eq_true_eq,
    beq_iff_eq]
  omega

theorem keyLe_refl (a : Nat × Int) : keyLe a a = true := by
  simp [keyLe]

theorem levelOrder_le_three (s : String) : levelOrder s ≤ 3 := by
  unfold levelOrder
  split_ifs <;> omega

theorem levelOrder_eq_three (s : String) :
    levelOrder s = 3 ↔ (s ≠ "red" ∧ s ≠ "yellow" ∧ s ≠ "green") := by
  unfold levelOrder
  split_ifs <;> simp_all

/-- The output of ranking is pairwise sorted by the key. -/
theorem rank_sorted (l : List Enriched) :
    (rankAlerts l).Pairwise (fun a b => keyLe (sortKey a) (sortKey b)) :=
  List.sorted_mergeSort
    (fun a b c => keyLe_trans (sortKey a) (sortKey b) (sortKey c))
    (fun a b => keyLe_total (sortKey a) (sortKey b)) l

/-- Stability: for every key value, ranking preserves the relative order
(hence the exact filtered subsequence) of the alerts with that key. -/
theorem rank_filter_eq (l : List Enriched) (k : Nat × Int) :
    (rankAlerts l).filter (fun a => sortKey a == k) =
      l.filter (fun a => sortKey a == k) := by
  have hpw : (l.filter (fun a => sortKey a == k)).Pairwise
      (fun a b => keyLe (sortKey a) (sortKey b)) := by
    refine List.pairwise_of_forall_mem_list ?_
    intro a ha b hb
    have hak := (List.mem_filter.mp ha).2
    have hbk := (List.mem_filter.mp hb).2
    rw [beq_iff_eq] at hak hbk
    rw [hak, hbk]
    exact keyLe_refl k
  have hsub : List.Sublist (l.filter (fun a => sortKey a == k)) (rankAlerts l) :=
    List.sublist_mergeSort
      (fun a b c => keyLe_trans (sortKey a) (sortKey b) (sortKey c))
      (fun a b => keyLe_total (sortKey a) (sortKey b))
      hpw (List.filter_sublist l)
  have hsub2 : List.Sublist (l.filter (fun a => sortKey a == k))
      ((rankAlerts l).filter (fun a => sortKey a == k)) := by
    have := hsub.filter (fun a => sortKey a == k)
    simpa using this
  have hlen : ((rankAlerts l).filter (fun a => sortKey a == k)).length =
      (l.filter (fun a => sortKey a == k)).length :=
    ((List.mergeSort_perm l _).filter _).length_eq
  exact (hsub2.eq_of_length hlen.symm).symm

/-- C3: ranking permutes the input; in the output no yellow or green alert
precedes a red one, `impact_monthly` is non-increasing within a level, and
unrecognized levels come after the three known ones (pairwise, in order);
and ties on the full key keep their original relative order. -/
theorem C3_ranking_spec (l : List Enriched) :
    (rankAlerts l).Perm l ∧
    (rankAlerts l).Pairwise (fun a b =>
      ((a.level = "yellow" ∨ a.level = "green") → b.level ≠ "red") ∧
      (a.level = b.level → b.impact_monthly ≤ a.impact_monthly) ∧
      ((a.level ≠ "red" ∧ a.level ≠ "yellow" ∧ a.level ≠ "green") →
        (b.level ≠ "red" ∧ b.level ≠ "yellow" ∧ b.level ≠ "green"))) ∧
    (∀ k : Nat × Int, (rankAlerts l).filter (fun a => sortKey a == k) =
      l.filter (fun a => sortKey a == k)) := by
  refine ⟨List.mergeSort_perm l _, ?_, rank_filter_eq l⟩
  refine (rank_sorted l).imp ?_
  intro a b hle
  simp only [keyLe, sortKey, Bool.or_eq_true, Bool.and_eq_true,
    decide_eq_true_eq, beq_iff_eq] at hle
  refine ⟨fun hag hbred => ?_, fun heq => ?_, fun hun => ?_⟩
  · have hb0 : levelOrder b.level = 0 := by rw [hbred]; rfl
    have ha1 : 1 ≤ levelOrder a.level := by
      rcases hag with h | h <;> rw [h] <;> decide
    omega
  · have hlo : levelOrder a.level = levelOrder b.level := by rw [heq]
    omega
  · have ha3 : levelOrder a.level = 3 := (levelOrder_eq_three _).mpr hun
    have hb3 : levelOrder b.level ≤ 3 := levelOrder_le_three _
    exact (levelOrder_eq_three _).mp (by omega)

/-- Python `s.endswith(t)` on character lists. -/
def endsL (s n : List Char) : Bool :=
  startsL s.reverse n.reverse

/-- A parsed local report file: `path` relative to the reports directory,
its modification time, and its parse result (`none` = the JSON fails to
parse). -/
structure FileEntry (α : Type) where
  path : String
  mtime : Nat
  doc : Option α
deriving DecidableEq, Repr

/-- The local tier `find_latest_report` reads: the reports directory listing
and the bundled `sample_reports.json` keyed by agent. -/
structure LocalEnv (α : Type) where
  files : List (FileEntry α)
  samples : List (String × α)
deriving DecidableEq, Repr

/-- The glob patterns of app.py 556-562 as (stem, tail) pairs around the
single `*`: dedicated patterns for `annunci`, `bussola`, `spia`, `zona`;
a default of `{agent_id}*.json` plus `{agent_id}/*.json` otherwise. -/
def agentGlobs (agent_id : String) : List (String × String) :=
  if agent_id == "annunci" then [("annunci-", ".json")]
  else if agent_id == "bussola" then [("bussola", ".json")]
  else if agent_id == "spia" then [("spia/", ".json")]
  else if agent_id == "zona" then [("zona-", ".json")]
  else [(agent_id, ".json"), (agent_id ++ "/", ".json")]

/-- One-star glob match: the path starts with `pre`, ends with `post`, and
the part the `*` swallows stays inside one path component; when the `*`
opens a component, glob hides dot-files, so the component must not start
with `.`. -/
def globMatch (pre post path : String) : Bool :=
  let p := pre.data
  let s := post.data
  let n := path.data
  let mid := (n.drop p.length).take (n.length - p.length - s.length)
  startsL p n && endsL s n && decide (p.length + s.length ≤ n.length) &&
  !(mid.contains '/') &&
  (if p == [] || p.getLast? == some '/' then !((mid ++ s).head? == some '.') else true)

/-- `files = []; for p in search: files.extend(glob.glob(p))`
(app.py 563-565). -/
def globFiles {α : Type} (env : LocalEnv α) (agent_id : String) : List (FileEntry α) :=
  (agentGlobs agent_id).foldl
    (fun acc pr => acc ++ env.files.filter (fun f => globMatch pr.1 pr.2 f.path)) []

/-- `max(files, key=os.path.getmtime)` (app.py 569): the first file with the
greatest modification time (Python `max` keeps the earliest maximum). -/
def pickLatest {α : Type} : List (FileEntry α) → Option (FileEntry α)
  | [] => none
  | f :: fs => some (fs.foldl (fun best g => if best.mtime < g.mtime then g else best) f)

/-- `find_latest_report(agent_id)` (app.py 555-574) — the local tier of the
source resolver, consulted when the remote store is unavailable: newest
matching local file, falling back to the bundled sample on no match or on a
parse failure, and to absent when no sample exists either. -/
def find_latest_report {α : Type} (env : LocalEnv α) (agent_id : String) : Option α :=
  match pickLatest (globFiles env agent_id) with
  | none => env.samples.lookup agent_id
  | some f =>
    match f.doc with
    | some d => some d
    | none => env.samples.lookup agent_id

theorem foldl_pick_mem {α : Type} :
    ∀ (fs : List (FileEntry α)) (f : FileEntry α),
      fs.foldl (fun best g => if best.mtime < g.mtime then g else best) f ∈ f :: fs
  | [], f => by simp
  | g :: gs, f => by
    simp only [List.foldl_cons]
    have h := foldl_pick_mem gs (if f.mtime < g.mtime then g else f)
    rcases List.mem_cons.mp h with h | h
    · rw [h]
      split
      · exact List.mem_cons_of_mem _ (List.mem_cons_self _ _)
      · exact List.mem_cons_self _ _
    · exact List.mem_cons_of_mem _ (List.mem_cons_of_mem _ h)

theorem foldl_pick_ge_init {α : Type} :
    ∀ (fs : List (FileEntry α)) (f : FileEntry α),
      f.mtime ≤ (fs.foldl (fun best g => if best.mtime < g.mtime then g else best) f).mtime
  | [], f => le_refl _
  | g :: gs, f => by
    simp only [List.foldl_cons]
    refine le_trans ?_ (foldl_pick_ge_init gs _)
    split <;> omega

theorem foldl_pick_ge_mem {α : Type} :
    ∀ (fs : List (FileEntry α)) (f : FileEntry α), ∀ x ∈ fs,
      x.mtime ≤ (fs.foldl (fun best g => if best.mtime < g.mtime then g else best) f).mtime
  | [], _, x, hx => by cases hx
  | g :: gs, f, x, hx => by
    simp only [List.foldl_cons]
    rcases List.mem_cons.mp hx with rfl | hx
    · refine le_trans ?_ (foldl_pick_ge_init gs _)
      split <;> omega
    · exact foldl_pick_ge_mem gs _ x hx

/-- `pickLatest` returns a member of greatest modification time. -/
theorem pickLatest_spec {α : Type} (fs : List (FileEntry α)) (f : FileEntry α)
    (h : pickLatest fs = some f) : f ∈ fs ∧ ∀ x ∈ fs, x.mtime ≤ f.mtime := by
  cases fs with
  | nil => cases h
  | cons g gs =>
    obtain rfl := Option.some.inj h
    refine ⟨foldl_pick_mem gs g, ?_⟩
    intro x hx
    rcases List.mem_cons.mp hx with rfl | hx
    · exact foldl_pick_ge_init gs x
    · exact foldl_pick_ge_mem gs g x hx

theorem pickLatest_eq_none {α : Type} {fs : List (FileEntry α)} :
    pickLatest fs = none ↔ fs = [] := by
  cases fs <;> simp [pickLatest]

/-- The selected file\x27s parse result, or the agent\x27s bundled sample on a
parse failure (app.py 570-574). -/
def docOrSample {α : Type} (env : LocalEnv α) (agent_id : String) (f : FileEntry α) : Option α :=
  match f.doc with
  | some d => some d
  | none => env.samples.lookup agent_id

/-- C6: with the remote store unavailable, `find_latest_report` returns the
parse of a most-recently-modified matching local file; with no matching
local file, or a parse failure on the selected file, the bundled sample for
the agent; and absent when no sample exists either. -/
theorem C6_resolver_spec {α : Type} (env : LocalEnv α) (agent_id : String) :
    (globFiles env agent_id = [] →
      find_latest_report env agent_id = env.samples.lookup agent_id) ∧
    (globFiles env agent_id ≠ [] →
      ∃ f, f ∈ globFiles env agent_id ∧
        (∀ x ∈ globFiles env agent_id, x.mtime ≤ f.mtime) ∧
        find_latest_report env agent_id = docOrSample env agent_id f) ∧
    (globFiles env agent_id = [] → env.samples.lookup agent_id = none →
      find_latest_report env agent_id = none) := by
  refine ⟨fun h => ?_, fun h => ?_, fun h h2 => ?_⟩
  · unfold find_latest_report
    rw [h]
    rfl
  · cases hp : pickLatest (globFiles env agent_id) with
    | none => exact absurd (pickLatest_eq_none.mp hp) h
    | some f =>
      obtain ⟨hmem, hmax⟩ := pickLatest_spec _ f hp
      refine ⟨f, hmem, hmax, ?_⟩
      unfold find_latest_report
      rw [hp]
      cases hd : f.doc <;> simp [docOrSample, hd]
  · unfold find_latest_report
    rw [h]
    simpa [pickLatest] using h2

/-- A concrete local environment: two zona reports and an unrelated file,
plus a bundled zona sample. -/
def c6_env : LocalEnv Nat :=
  ⟨[⟨"zona-a.json", 5, some 1⟩, ⟨"zona-b.json", 9, some 2⟩, ⟨"other.json", 99, some 3⟩],
   [("zona", 7)]⟩

/-- C6 witness: the resolver theorem at a concrete environment. -/
theorem C6_resolver_witness :
    globFiles c6_env "zona" ≠ [] ∧
    (∃ f, f ∈ globFiles c6_env "zona" ∧
      (∀ x ∈ globFiles c6_env "zona", x.mtime ≤ f.mtime) ∧
      find_latest_report c6_env "zona" = docOrSample c6_env "zona" f) :=
  ⟨by decide, (C6_resolver_spec c6_env "zona").2.1 (by decide)⟩

/-- Approval: the record `api_fix` builds and appends (app.py 1006-1016). -/
structure Approval where
  alert_id : String
  fix_action : String
  school : String
  campaign : String
  description : String
  estimated_impact : String
  approved_by : String
  timestamp : String
  status : String
deriving DecidableEq, Repr

/-- The JSON body of a fix-approval request; every field optional.  A
`status` supplied by the caller is ignored by the endpoint.
`hasOtherKeys` records whether the object carries keys beyond these nine:
Python only tests the dict itself (`if not data`), so a body whose only
keys are unrelated ones is truthy and proceeds with all defaults. -/
structure FixInput where
  alert_id : Option String
  fix_action : Option String
  school : Option String
  campaign : Option String
  description : Option String
  estimated_impact : Option String
  approved_by : Option String
  timestamp : Option String
  status : Option String
  hasOtherKeys : Bool
deriving DecidableEq, Repr

/-- Whether the JSON body is the empty object `{}`: no key at all.  Python\x27s
`if not data:` (app.py 1004) is true exactly for an absent body or this
falsy empty dict. -/
def isEmptyBody (d : FixInput) : Bool :=
  d.alert_id == none && d.fix_action == none && d.school == none &&
  d.campaign == none && d.description == none && d.estimated_impact == none &&
  d.approved_by == none && d.timestamp == none && d.status == none &&
  !d.hasOtherKeys

/-- The empty JSON object `{}` as a request body. -/
def emptyFixInput : FixInput :=
  ⟨none, none, none, none, none, none, none, none, none, false⟩

/-- The approval dict of app.py 1006-1016: permissive defaults, `approved_by`
defaults to "client", `timestamp` to the current instant `now`, and
`status = "approved"` unconditionally. -/
def mkApproval (d : FixInput) (now : String) : Approval :=
  ⟨d.alert_id.getD "", d.fix_action.getD "", d.school.getD "", d.campaign.getD "",
   d.description.getD "", d.estimated_impact.getD "", d.approved_by.getD "client",
   d.timestamp.getD now, "approved"⟩

/-- The distinct "action" row mirrored to the remote `parlami_actions` table
(app.py 1022-1033); every `.get` there finds its key, since `mkApproval`
sets them all.  The `result` JSON is kept as its two components. -/
structure ActionRow where
  alert_id : String
  client_slug : String
  school : String
  agent : String
  action_type : String
  description : String
  estimated_impact : String
  status : String
  approved_by : String
  result_campaign : String
  result_timestamp : String
deriving DecidableEq, Repr

def mkActionRow (a : Approval) : ActionRow :=
  ⟨a.alert_id, a.school, a.school, a.fix_action, a.fix_action, a.description,
   a.estimated_impact, "approved", a.approved_by, a.campaign, a.timestamp⟩

/-- The stores the approval ledger touches: the local `approvals.json`
(`none` = missing or unreadable), the bundled sample file `load_approvals`
falls back to, and the remote actions table guarded by `sbAvailable`. -/
structure LedgerStore where
  localLog : Option (List Approval)
  sampleLog : Option (List Approval)
  remote : List ActionRow
  sbAvailable : Bool
deriving DecidableEq, Repr

/-- `load_approvals()` (app.py 597-606): the local file, else the bundled
sample, else `[]`. -/
def load_approvals (s : LedgerStore) : List Approval :=
  s.localLog.getD (s.sampleLog.getD [])

/-- `save_approval(approval)` (app.py 609-614): re-read the collection,
append, rewrite the local file. -/
def save_approval (s : LedgerStore) (a : Approval) : LedgerStore :=
  { s with localLog := some (load_approvals s ++ [a]) }

/-- The outcome `api_fix` returns to its caller.  `noBody` is the 400
"No JSON body" rejection, which Python\x27s falsy test gives both to an
absent body and to the empty object `{}`. -/
inductive FixOutcome where
  | demoBlocked
  | noBody
  | ok (a : Approval)
deriving DecidableEq, Repr

/-- `api_fix` (app.py 997-1038): refuse in demo mode; `if not data:` then
rejects with 400 both an absent JSON body and the falsy empty object `{}`;
otherwise build the approval, commit it to the local log first, then
best-effort mirror an action row to the remote store — `mirrorOk = false`
models a failing mirror write, which is swallowed (`_sb_upsert` returns
`None` on any error and the surrounding `except` ignores the rest), so the
response does not depend on it. -/
def api_fix (demo : Bool) (body : Option FixInput) (now : String)
    (mirrorOk : Bool) (s : LedgerStore) : LedgerStore × FixOutcome :=
  if demo then (s, .demoBlocked)
  else
    match body with
    | none => (s, .noBody)
    | some d =>
      if isEmptyBody d then (s, .noBody)
      else
        let a := mkApproval d now
        let s1 := save_approval s a
        let s2 := if s1.sbAvailable && mirrorOk then
            { s1 with remote := s1.remote ++ [mkActionRow a] }
          else s1
        (s2, .ok a)

/-- C7: a failing remote mirror write never surfaces — the caller\x27s
outcome and the local log are the same as with a succeeding mirror — and
every approval the operation records while the mirror fails is afterwards
retrievable from the local log: the local write commits before and
independently of the mirror attempt. -/
theorem C7_ledger_durability (d : FixInput) (now : String) (s : LedgerStore) :
    (api_fix false (some d) now false s).2 = (api_fix false (some d) now true s).2 ∧
    (api_fix false (some d) now false s).1.localLog =
      (api_fix false (some d) now true s).1.localLog ∧
    (∀ a : Approval, (api_fix false (some d) now false s).2 = .ok a →
      a = mkApproval d now ∧
      a ∈ load_approvals (api_fix false (some d) now false s).1) ∧
    (isEmptyBody d = false →
      (api_fix false (some d) now false s).2 = .ok (mkApproval d now)) := by
  by_cases he : isEmptyBody d = true
  · simp [api_fix, he]
  · rw [Bool.not_eq_true] at he
    refine ⟨?_, ?_, fun a ha => ?_, fun _ => ?_⟩
    · simp [api_fix, he]
    · simp only [api_fix, he, Bool.false_eq_true, if_false, save_approval,
        Bool.and_false, Bool.and_true]
      cases s.sbAvailable <;> simp
    · simp only [api_fix, he, Bool.false_eq_true, if_false, Bool.and_false] at ha ⊢
      exact ⟨(FixOutcome.ok.inj ha).symm, by
        simp [save_approval, load_approvals, ← (FixOutcome.ok.inj ha)]⟩
    · simp [api_fix, he]

/-- A store with an empty, readable local log and no remote. -/
def wStore : LedgerStore := ⟨some [], none, [], false⟩

/-- A non-empty request body with the identifying fields present. -/
def c7_input : FixInput :=
  ⟨some "beibei-annunci-1", some "pause_campaign", some "beibei", none, none,
   none, none, none, none, false⟩

/-- C7 witness: the durability theorem at a concrete accepted request. -/
theorem C7_ledger_durability_witness :
    isEmptyBody c7_input = false ∧
    (api_fix false (some c7_input) "T" false wStore).2 = .ok (mkApproval c7_input "T") ∧
    (mkApproval c7_input "T" = mkApproval c7_input "T" ∧
      mkApproval c7_input "T" ∈ load_approvals (api_fix false (some c7_input) "T" false wStore).1) := by
  have h := C7_ledger_durability c7_input "T" wStore
  have hok := h.2.2.2 (by decide)
  exact ⟨by decide, hok, h.2.2.1 (mkApproval c7_input "T") hok⟩

/-- C8 (amended): with a JSON body that is not the falsy empty object, the
endpoint never rejects: it answers `ok` with the built approval, whose
fields default permissively (empty strings, `approved_by = "client"`,
`timestamp = now` when absent) and whose `status` is "approved" regardless
of any caller-supplied status. -/
theorem C8_record_permissive (d : FixInput) (now : String) (mOk : Bool)
    (s : LedgerStore) (hd : isEmptyBody d = false) :
    (api_fix false (some d) now mOk s).2 = .ok (mkApproval d now) ∧
    (mkApproval d now).status = "approved" ∧
    (∀ st : Option String, (mkApproval { d with status := st } now).status = "approved") ∧
    (mkApproval d now).approved_by = d.approved_by.getD "client" ∧
    (d.timestamp = none → (mkApproval d now).timestamp = now) ∧
    (d.alert_id = none → (mkApproval d now).alert_id = "") ∧
    (d.school = none → (mkApproval d now).school = "") ∧
    (d.fix_action = none → (mkApproval d now).fix_action = "") := by
  refine ⟨by simp [api_fix, hd], rfl, fun st => rfl, rfl, fun h => ?_, fun h => ?_,
    fun h => ?_, fun h => ?_⟩ <;> simp [mkApproval, h]

/-- A request body whose only key is a caller-supplied `status`: truthy in
Python, every identifying field missing. -/
def c8_input : FixInput :=
  ⟨none, none, none, none, none, none, none, none, some "pending", false⟩

/-- C8 witness: the permissive-record theorem at a concrete truthy body
with every identifying field missing and a caller-supplied status. -/
theorem C8_record_permissive_witness :
    isEmptyBody c8_input = false ∧
    ((api_fix false (some c8_input) "T" false wStore).2 = .ok (mkApproval c8_input "T") ∧
      (mkApproval c8_input "T").status = "approved" ∧
      (∀ st : Option String, (mkApproval { c8_input with status := st } "T").status = "approved") ∧
      (mkApproval c8_input "T").approved_by = c8_input.approved_by.getD "client" ∧
      (c8_input.timestamp = none → (mkApproval c8_input "T").timestamp = "T") ∧
      (c8_input.alert_id = none → (mkApproval c8_input "T").alert_id = "") ∧
      (c8_input.school = none → (mkApproval c8_input "T").school = "") ∧
      (c8_input.fix_action = none → (mkApproval c8_input "T").fix_action = "")) :=
  ⟨by decide, C8_record_permissive c8_input "T" false wStore (by decide)⟩

/-- C8 counterexample: the empty JSON object `{}` — a JSON body with every
field missing — is falsy, so `if not data:` (app.py 1004) rejects it with
400 "No JSON body" instead of recording an all-defaults approval. -/
theorem C8_counterexample :
    (api_fix false (some emptyFixInput) "T" true wStore).2 = FixOutcome.noBody ∧
    (api_fix false (some emptyFixInput) "T" true wStore).1 = wStore := by
  exact ⟨rfl, rfl⟩

/-- A Python value of the shapes the alert schema carries: a string or an
integer.  Used to model `enrich_alert` under Python dynamic typing. -/
inductive PyVal where
  | str (s : String)
  | int (n : Int)
deriving DecidableEq, Repr

/-- A Python dict with string keys, as the JSON alert arrives. -/
abbrev DynDict := List (String × PyVal)

/-- `d.get(k, dflt)`. -/
def pyGet (d : DynDict) (k : String) (dflt : PyVal) : PyVal :=
  (d.lookup k).getD dflt

/-- How an f-string renders a value (`str(x)`). -/
def pyRender : PyVal → String
  | .str s => s
  | .int n => toString n

/-- Python truthiness test `not x` of the values at hand: empty string and
zero are falsy. -/
def pyFalsy : PyVal → Bool
  | .str s => s == ""
  | .int n => n == 0

/-- A fix entry under dynamic typing: the fields Python would store from an
arbitrarily-typed alert are `PyVal`. -/
structure DynFix where
  description : PyVal
  action_type : String
  estimated_impact : String
  assigned_agent : PyVal
  campaign : Option String
deriving DecidableEq, Repr

/-- The enriched dict under dynamic typing: `level`, `school`, `why`,
`assigned_to` are stored unchecked, so they keep whatever type the alert
carried. -/
structure DynEnriched where
  alert_id : String
  agent : String
  level : PyVal
  school : PyVal
  title : String
  impact_monthly : Int
  impact_type : String
  why : PyVal
  evidence : List String
  fixes : List DynFix
  assigned_to : PyVal
deriving DecidableEq, Repr

/-- A rule fix, injected into the dynamic shape (rule fixes are all-string). -/
def dynFix (f : Fix) : DynFix :=
  ⟨.str f.description, f.action_type, f.estimated_impact, .str f.assigned_agent, f.campaign⟩

/-- A typed enriched alert, viewed in the dynamic shape. -/
def dynView (e : Enriched) : DynEnriched :=
  ⟨e.alert_id, e.agent, .str e.level, .str e.school, e.title, e.impact_monthly,
   e.impact_type, .str e.why, e.evidence, e.fixes.map dynFix, .str e.assigned_to⟩

/-- `enrich_alert` under Python dynamic typing (app.py 617-759): the same
control flow as `enrich_alert`, but on a raw dict.  `alert.get("finding",
"").lower()` raises AttributeError on a non-string (app.py 619), and the
comparison `impact > 0` (evaluated unconditionally at app.py 638) raises
TypeError when `impact_dollars` is a string; every other alert field is
stored without a type check.  A non-string `school` misses every string key
of `report["metrics"]`. -/
def enrichDyn (alert : DynDict) (agent_id : String) (report : Report) :
    Except String DynEnriched :=
  match pyGet alert "finding" (.str "") with
  | .int _ => .error "AttributeError: int has no attribute lower"
  | .str rawFinding =>
    let finding := pyLower rawFinding
    let school := pyGet alert "school" (.str "unknown")
    let level := pyGet alert "level" (.str "yellow")
    match pyGet alert "impact_dollars" (.int 0) with
    | .str _ => .error "TypeError: comparison not supported between str and int"
    | .int impact =>
      let alert_id := pyRender school ++ "-" ++ agent_id ++ "-" ++
        toString (pyHash rawFinding % 10000)
      let impact_type :=
        if agent_id == "annunci" && decide (impact > 0) then "confirmed"
        else if agent_id == "bussola" && decide (impact > 0) then "confirmed"
        else "estimated"
      let assigned := pyGet alert "assigned_to" (.str agent_id)
      let base : DynEnriched :=
        ⟨alert_id, agent_id, level, school, rawFinding,
         if impact > 0 then impact * 4 else 0, impact_type,
         .str "", [], [], assigned⟩
      let schoolKey := match school with | .str s => some s | .int _ => none
      let afterRules :=
        match ruleMatch agent_id finding rawFinding impact report schoolKey with
        | some (w, e, f) =>
          { base with why := .str w, evidence := e, fixes := f.map dynFix }
        | none => base
      .ok (if pyFalsy afterRules.why then
        { afterRules with
            why := pyGet alert "action_required"
              (.str "Investigation needed to determine root cause."),
            evidence := [rawFinding],
            fixes := [⟨pyGet alert "action_required" (.str "Review and take action"),
                       "manual_review", "TBD", assigned, none⟩] }
      else afterRules)

/-- A present key of a typed alert, as a dict entry. -/
def optEntry (k : String) : Option PyVal → DynDict
  | some v => [(k, v)]
  | none => []

/-- A well-typed alert as the dict Python receives: present fields with
their schema types, absent fields omitted. -/
def toDyn (a : RawAlert) : DynDict :=
  optEntry "finding" (a.finding.map .str) ++
  optEntry "school" (a.school.map .str) ++
  optEntry "level" (a.level.map .str) ++
  optEntry "impact_dollars" (a.impact_dollars.map .int) ++
  optEntry "assigned_to" (a.assigned_to.map .str) ++
  optEntry "action_required" (a.action_required.map .str)

theorem toDyn_finding (a : RawAlert) (dflt : PyVal) :
    pyGet (toDyn a) "finding" dflt = (a.finding.map PyVal.str).getD dflt := by
  obtain ⟨f, sc, lv, imp, asg, ar⟩ := a
  cases f <;> cases sc <;> cases lv <;> cases imp <;> cases asg <;> cases ar <;> rfl

theorem toDyn_school (a : RawAlert) (dflt : PyVal) :
    pyGet (toDyn a) "school" dflt = (a.school.map PyVal.str).getD dflt := by
  obtain ⟨f, sc, lv, imp, asg, ar⟩ := a
  cases f <;> cases sc <;> cases lv <;> cases imp <;> cases asg <;> cases ar <;> rfl

theorem toDyn_level (a : RawAlert) (dflt : PyVal) :
    pyGet (toDyn a) "level" dflt = (a.level.map PyVal.str).getD dflt := by
  obtain ⟨f, sc, lv, imp, asg, ar⟩ := a
  cases f <;> cases sc <;> cases lv <;> cases imp <;> cases asg <;> cases ar <;> rfl

theorem toDyn_impact (a : RawAlert) (dflt : PyVal) :
    pyGet (toDyn a) "impact_dollars" dflt = (a.impact_dollars.map PyVal.int).getD dflt := by
  obtain ⟨f, sc, lv, imp, asg, ar⟩ := a
  cases f <;> cases sc <;> cases lv <;> cases imp <;> cases asg <;> cases ar <;> rfl

theorem toDyn_assigned (a : RawAlert) (dflt : PyVal) :
    pyGet (toDyn a) "assigned_to" dflt = (a.assigned_to.map PyVal.str).getD dflt := by
  obtain ⟨f, sc, lv, imp, asg, ar⟩ := a
  cases f <;> cases sc <;> cases lv <;> cases imp <;> cases asg <;> cases ar <;> rfl

theorem toDyn_action (a : RawAlert) (dflt : PyVal) :
    pyGet (toDyn a) "action_required" dflt = (a.action_required.map PyVal.str).getD dflt := by
  obtain ⟨f, sc, lv, imp, asg, ar⟩ := a
  cases f <;> cases sc <;> cases lv <;> cases imp <;> cases asg <;> cases ar <;> rfl

theorem mapStr_getD (o : Option String) (d : String) :
    (o.map PyVal.str).getD (.str d) = .str (o.getD d) := by
  cases o <;> rfl

theorem mapInt_getD (o : Option Int) (d : Int) :
    (o.map PyVal.int).getD (.int d) = .int (o.getD d) := by
  cases o <;> rfl

/-- C9 (amended): enrichment is a pure function; on every alert whose
present fields carry their schema types the dynamic evaluation never raises,
absent fields degrade to the neutral defaults, and the result is exactly the
typed enrichment. -/
theorem C9_enrich_total_on_typed (a : RawAlert) (g : String) (r : Report) :
    enrichDyn (toDyn a) g r = .ok (dynView (enrich_alert a g r)) := by
  simp only [enrichDyn, toDyn_finding, toDyn_school, toDyn_level, toDyn_impact,
    toDyn_assigned, toDyn_action, mapStr_getD, mapInt_getD]
  rcases hm : ruleMatch g (pyLower (a.finding.getD "")) (a.finding.getD "")
      (a.impact_dollars.getD 0) r (some (a.school.getD "unknown")) with _ | ⟨w, e, fx⟩ <;>
    simp only [enrich_alert, dynView, hm, pyFalsy, pyRender] <;>
    [skip; by_cases hw : w = ""] <;>
    simp_all [pyFalsy, dynFix]

/-- C9 counterexample: the raw alert `{"finding": 3}` (a malformed,
non-string finding) makes `enrich_alert` raise at `alert.get("finding",
"").lower()` instead of degrading to a default. -/
theorem C9_counterexample :
    enrichDyn [("finding", PyVal.int 3)] "annunci" emptyReport =
      .error "AttributeError: int has no attribute lower" := rfl

end Parlami
